import Mathlib

/-!
Verification development for the GridGuard SCADA testbed.

The repository's pipeline (src/physical_process_enhanced.py) polls a PLC for
a breaker state, updates three time-varying loads, runs a power-flow solve,
and publishes a metrics snapshot to a shared JSON file plus an append-only
time-series log.  src/web_dashboard.py consumes the shared file and broadcasts
it; src/blue_team_monitor.py polls security registers and emits alert events.

The embedding below models the repository's own sequencing, JSON shaping and
threshold logic.  External effects are explicit inputs:

* IEEE-754 doubles are modelled as `Option Rat` (`PFloat`), with `none`
  standing for NaN; all finite arithmetic performed by the repository's code
  is exact rational arithmetic on small decimal literals, so `Rat` is faithful.
* The pandapower solver (`pp.runpp`) is an opaque external call; one cycle's
  solver outcome is an input of type `Option SolverOutput` (`none` = the solve
  raised / did not converge).  Result-table cells are `PFloat` because
  pandapower reports NaN for out-of-service (isolated) elements.
* numpy's unseeded Gaussian draws are inputs ranging over all rationals
  (a normal distribution has full support, so every rational is a possible
  draw).
* Modbus traffic is an input of type `PlcReadResult`.
-/

namespace GridGuard

/-- Model of a Python float as produced by the solver: `none` models IEEE NaN,
`some q` a finite value. -/
abbrev PFloat := Option ℚ

/-- NaN-propagating addition (Python `+` on floats). -/
def pAdd : PFloat → PFloat → PFloat
  | some a, some b => some (a + b)
  | _, _ => none

/-- NaN-propagating subtraction (Python `-` on floats). -/
def pSub : PFloat → PFloat → PFloat
  | some a, some b => some (a - b)
  | _, _ => none

/-- NaN-propagating multiplication (Python `*` on floats). -/
def pMul : PFloat → PFloat → PFloat
  | some a, some b => some (a * b)
  | _, _ => none

/-- NaN-propagating absolute value (Python `abs` on floats). -/
def pAbs : PFloat → PFloat
  | some a => some |a|
  | none => none

/-- Python `sum` over a list of floats (starts from 0, NaN propagates). -/
def pSum (l : List PFloat) : PFloat := l.foldl pAdd (some 0)

/-! ## Static topology (PowerSystemHMI.setup_power_system)

The network created in src/physical_process_enhanced.py lines 22-59: five
buses, one external grid at bus 0, three transformers, three loads, one
generator at bus 2, and the single "Critical Transmission Line" from bus 1
(MV Bus 1) to bus 2 (MV Bus 2) guarded by the PLC breaker switch.  The
topology is fixed at process start; only load setpoints and the one switch
change afterwards. -/

structure BusDef where
  name : String
  vn_kv : ℚ
deriving DecidableEq

structure LineDef where
  name : String
  from_bus : ℕ
  to_bus : ℕ
deriving DecidableEq

structure GenDef where
  name : String
  bus : ℕ
deriving DecidableEq

def net_bus : List BusDef :=
  [⟨"HV Substation", 138⟩, ⟨"MV Bus 1", 13.8⟩, ⟨"MV Bus 2", 13.8⟩,
   ⟨"Load Center 1", 0.48⟩, ⟨"Load Center 2", 0.48⟩]

def net_line : List LineDef := [⟨"Critical Transmission Line", 1, 2⟩]

def net_gen : List GenDef := [⟨"Distributed Generator", 2⟩]

/-- Lookup of a bus name by pandas row index (self.net.bus.loc[i, 'name']). -/
def bus_name (i : ℕ) : String := (net_bus[i]?.map BusDef.name).getD ""

/-! ## Loads and PowerSystemHMI.update_dynamic_loads -/

/-- One row of self.net.load: name, bus index, and the mutable setpoints. -/
structure LoadState where
  name : String
  bus : ℕ
  p_mw : ℚ
  q_mvar : ℚ
deriving DecidableEq

/-- The three rows of self.net.load (net.load.loc[0], .loc[1], .loc[2]). -/
structure NetLoads where
  load0 : LoadState
  load1 : LoadState
  load2 : LoadState
deriving DecidableEq

/-- Initial loads from setup_power_system (lines 45-47): Industrial at
Load Center 1 (bus 3), Commercial at Load Center 2 (bus 4), Residential
Feeder at MV Bus 2 (bus 2). -/
def init_loads : NetLoads :=
  ⟨⟨"Industrial Load", 3, 0.8, 0.3⟩,
   ⟨"Commercial Load", 4, 0.5, 0.2⟩,
   ⟨"Residential Feeder", 2, 2.1, 0.8⟩⟩

/-- PowerSystemHMI.update_dynamic_loads (lines 101-129).  The three factor
curves are built from np.sin of the simulated hour and from unseeded
np.random.normal draws; they and the three raw noise draws n0, n1, n2 enter
here as unconstrained rational inputs (the Gaussian has full support).  The
body mirrors lines 119-129 exactly: each active power is floor-clamped with
Python max, and reactive power is set proportionally. -/
def update_dynamic_loads (industrial_factor commercial_factor residential_factor : ℚ)
    (n0 n1 n2 : ℚ) (loads : NetLoads) : NetLoads :=
  let p0 := max 0.2 (0.8 * industrial_factor + 0.05 * n0)
  let p1 := max 0.1 (0.5 * commercial_factor + 0.05 * n1)
  let p2 := max 0.5 (2.1 * residential_factor + 0.05 * n2)
  { load0 := { loads.load0 with p_mw := p0, q_mvar := p0 * 0.375 }
    load1 := { loads.load1 with p_mw := p1, q_mvar := p1 * 0.4 }
    load2 := { loads.load2 with p_mw := p2, q_mvar := p2 * 0.38 } }

/-! ## PowerSystemHMI.get_plc_breaker_state (lines 83-99) -/

/-- Outcome of one Modbus read_coils call: a successful read of the first
coil, a protocol-level error response (result.isError()), or a raised
exception. -/
inductive PlcReadResult where
  | ok (bits0 : Bool)
  | errorResponse
  | exn
deriving DecidableEq

/-- PowerSystemHMI.get_plc_breaker_state.  With no client (connection failed
at startup, simulation mode) the breaker follows the deterministic 40-second
cycle of lines 86-89; with a client the read result is used, substituting
True (closed) on a protocol error response or an exception. -/
def get_plc_breaker_state (has_client : Bool) (simulation_time : ℕ)
    (read : PlcReadResult) : Bool :=
  if !has_client then
    decide (simulation_time % 40 < 30)
  else
    match read with
    | .ok b => b
    | .errorResponse => true
    | .exn => true

/-! ## Solver result tables

One converged pp.runpp call fills the res_* tables read by
get_system_metrics.  Cells are `PFloat`: pandapower reports NaN for elements
that are out of service, which is what happens to the critical line (and the
island behind it) when the breaker switch is open — the repository's own
fixed variant (src/test_physical_process_fixed.py lines 153-183) documents
exactly this.  Out-of-service lines keep their row in res_line.index, so the
membership test on line 180 of src/physical_process_enhanced.py is always
true and is modelled by zipping the static line table with its result rows. -/

structure ResBusRow where
  vm_pu : PFloat
  va_degree : PFloat
deriving DecidableEq

structure ResLineRow where
  p_from_mw : PFloat
  q_from_mvar : PFloat
  loading_percent : PFloat
  i_from_ka : PFloat
deriving DecidableEq

structure ResGenRow where
  p_mw : PFloat
  q_mvar : PFloat
deriving DecidableEq

structure SolverOutput where
  res_bus : List ResBusRow
  res_line : List ResLineRow
  res_gen : List ResGenRow
  res_ext_grid_p_mw : PFloat
deriving DecidableEq

/-! ## The published snapshot (metrics dict of get_system_metrics) -/

structure BusEntry where
  name : String
  voltage_kv : ℚ
  voltage_pu : PFloat
  angle_deg : PFloat
  voltage_actual : PFloat
deriving DecidableEq

structure LineEntry where
  name : String
  from_bus : String
  to_bus : String
  p_from_mw : PFloat
  q_from_mvar : PFloat
  loading_percent : PFloat
  current_ka : PFloat
deriving DecidableEq

structure LoadEntry where
  name : String
  bus : String
  p_mw : ℚ
  q_mvar : ℚ
deriving DecidableEq

structure GenEntry where
  name : String
  bus : String
  p_mw : PFloat
  q_mvar : PFloat
deriving DecidableEq

structure PowerFlowSummary where
  total_load_mw : ℚ
  total_generation_mw : PFloat
  grid_import_mw : PFloat
  system_losses_mw : PFloat
deriving DecidableEq

structure Metrics where
  timestamp : String
  breaker_state : Bool
  breaker_status : String
  system_frequency : ℚ
  buses : List BusEntry
  lines : List LineEntry
  loads : List LoadEntry
  generators : List GenEntry
  power_flow : PowerFlowSummary
deriving DecidableEq

/-- Metric extraction of PowerSystemHMI.get_system_metrics (lines 154-224),
given the cycle's breaker state, frequency jitter draw (np.random.normal(0,
0.02), full support), the post-update loads and the solver tables.  Every
field mirrors the corresponding dict assignment; the power_flow summary uses
the same Python float semantics (NaN propagates through sum, + and abs). -/
def build_metrics (ts : String) (breaker_state : Bool) (jitter : ℚ)
    (loads : NetLoads) (res : SolverOutput) : Metrics :=
  let load_entries : List LoadEntry :=
    [loads.load0, loads.load1, loads.load2].map fun l =>
      { name := l.name, bus := bus_name l.bus, p_mw := l.p_mw, q_mvar := l.q_mvar }
  let gen_entries : List GenEntry :=
    (net_gen.zip res.res_gen).map fun gd =>
      { name := gd.1.name, bus := bus_name gd.1.bus
        p_mw := gd.2.p_mw, q_mvar := gd.2.q_mvar }
  let total_load : ℚ := (load_entries.map LoadEntry.p_mw).sum
  let total_generation : PFloat := pSum (gen_entries.map GenEntry.p_mw)
  { timestamp := ts
    breaker_state := breaker_state
    breaker_status := if breaker_state then "CLOSED" else "OPEN"
    system_frequency := 60 + jitter
    buses :=
      (net_bus.zip res.res_bus).map fun bd =>
        { name := bd.1.name
          voltage_kv := bd.1.vn_kv
          voltage_pu := bd.2.vm_pu
          angle_deg := bd.2.va_degree
          voltage_actual := pMul bd.2.vm_pu (some bd.1.vn_kv) }
    lines :=
      (net_line.zip res.res_line).map fun ld =>
        { name := ld.1.name
          from_bus := bus_name ld.1.from_bus
          to_bus := bus_name ld.1.to_bus
          p_from_mw := ld.2.p_from_mw
          q_from_mvar := ld.2.q_from_mvar
          loading_percent := ld.2.loading_percent
          current_ka := ld.2.i_from_ka }
    loads := load_entries
    generators := gen_entries
    power_flow :=
      { total_load_mw := total_load
        total_generation_mw := total_generation
        grid_import_mw := res.res_ext_grid_p_mw
        system_losses_mw :=
          pAbs (pSub (pAdd total_generation res.res_ext_grid_p_mw) (some total_load)) } }

/-- PowerSystemHMI.get_system_metrics overall: run_power_flow returns False
when pp.runpp raises (modelled by the solver outcome being `none`), in which
case the method returns None (lines 148-152); otherwise the metrics dict is
built from the result tables. -/
def get_system_metrics (ts : String) (breaker_state : Bool) (jitter : ℚ)
    (loads : NetLoads) (solve : Option SolverOutput) : Option Metrics :=
  match solve with
  | none => none
  | some res => some (build_metrics ts breaker_state jitter loads res)

/-! ## The publishing loop (PowerSystemHMI.run_simulation, lines 231-269) -/

/-- External state written by run_simulation: the append-only anomaly log
(/usr/src/app/logs/power_flow.log, one "timestamp,loading" line per converged
cycle) and the shared JSON file (/shared_data/scada_data.json, overwritten
with the whole metrics dict), plus the simulated-time counter. -/
structure SimOutputs where
  log_lines : List (String × PFloat)
  shared_file : Option Metrics
  simulation_time : ℕ
deriving DecidableEq

/-- The critical-line lookup of run_simulation line 248. -/
def find_critical_line (lines : List LineEntry) : Option LineEntry :=
  lines.find? fun l => l.name == "Critical Transmission Line"

/-- One iteration of run_simulation's while body given the cycle's
get_system_metrics result.  The entire publish block (console print, log
append, JSON write) is guarded by the truthiness test on metrics; only the
time counter advances when the solve failed. -/
def run_simulation_step (st : SimOutputs) (metrics : Option Metrics) : SimOutputs :=
  match metrics with
  | none => { st with simulation_time := st.simulation_time + 5 }
  | some m =>
      let log_lines :=
        match find_critical_line m.lines with
        | some cl => st.log_lines ++ [(m.timestamp, cl.loading_percent)]
        | none => st.log_lines
      { log_lines := log_lines
        shared_file := some m
        simulation_time := st.simulation_time + 5 }

/-- A whole run: fold the loop body over the per-cycle metrics results. -/
def run_simulation_trace (st : SimOutputs) (cycles : List (Option Metrics)) : SimOutputs :=
  cycles.foldl run_simulation_step st

/-! ## src/web_dashboard.py: SCADASystem -/

/-- The dict-comprehension guard of SCADASystem.run_power_flow lines 150-157:
float(v) if not pd.isna(v) else dflt.  Voltages default to 1.0, line
quantities to 0.0. -/
def normalize_na (dflt : ℚ) : PFloat → ℚ
  | some v => v
  | none => dflt

/-- The grid_data line block built by SCADASystem.run_power_flow (lines
152-159) from res_line: loading_percent, p_from_mw and q_from_mvar are
NaN-normalized to 0.0.  Note this snapshot carries no current_ka at all. -/
structure DashLineData where
  loading : List ℚ
  p_from_mw : List ℚ
  q_from_mvar : List ℚ
deriving DecidableEq

def dash_grid_lines (res_line : List ResLineRow) : DashLineData :=
  { loading := res_line.map fun r => normalize_na 0 r.loading_percent
    p_from_mw := res_line.map fun r => normalize_na 0 r.p_from_mw
    q_from_mvar := res_line.map fun r => normalize_na 0 r.q_from_mvar }

/-! ### SCADASystem.get_simulation_data (lines 175-215)

Reading /shared_data/scada_data.json: the `open` + `json.load` can succeed,
raise FileNotFoundError, raise an OSError (file unreadable), or raise
json.JSONDecodeError (malformed content).  Only FileNotFoundError has its own
handler (fallback); everything else lands in the generic `except Exception`
handler which logs and returns None. -/

inductive FileReadOutcome where
  | ok (doc : Metrics)
  | missing
  | unreadable
  | malformed
deriving DecidableEq

/-- One bus dict of the fallback dataset (no angle_deg, unlike the
evaluator's snapshot). -/
structure FallbackBus where
  name : String
  voltage_kv : ℚ
  voltage_pu : ℚ
  voltage_actual : ℚ
deriving DecidableEq

structure FallbackLoad where
  name : String
  bus : String
  p_mw : ℚ
  q_mvar : ℚ
deriving DecidableEq

structure FallbackGen where
  name : String
  bus : String
  p_mw : ℚ
  q_mvar : ℚ
deriving DecidableEq

/-- One line dict of the fallback dataset (no q_from_mvar, unlike the
evaluator's snapshot). -/
structure FallbackLine where
  name : String
  from_bus : String
  to_bus : String
  p_from_mw : ℚ
  loading_percent : ℚ
  current_ka : ℚ
deriving DecidableEq

structure FallbackPowerFlow where
  total_load_mw : ℚ
  total_generation_mw : ℚ
  grid_import_mw : ℚ
  system_losses_mw : ℚ
deriving DecidableEq

structure FallbackDoc where
  timestamp : String
  breaker_state : Bool
  breaker_status : String
  system_frequency : ℚ
  buses : List FallbackBus
  loads : List FallbackLoad
  generators : List FallbackGen
  lines : List FallbackLine
  power_flow : FallbackPowerFlow
deriving DecidableEq

/-- The synthetic fallback dataset of get_simulation_data lines 183-212,
with np.sin / np.cos passed in as functions of the wall-clock time t
(time.time()), the ISO timestamp as a string, and the breaker state from
self.plc_status. -/
def fallback_data (sin cos : ℚ → ℚ) (now : String) (t : ℚ) (breaker : Bool) :
    FallbackDoc :=
  { timestamp := now
    breaker_state := breaker
    breaker_status := if breaker then "CLOSED" else "OPEN"
    system_frequency := 60.0 + 0.05 * sin (t * 0.1)
    buses :=
      [⟨"HV Substation", 138.0, 1.02 + 0.01 * sin (t * 0.05),
        138.0 * (1.02 + 0.01 * sin (t * 0.05))⟩,
       ⟨"MV Bus 1", 13.8, 0.98 + 0.015 * sin (t * 0.07),
        13.8 * (0.98 + 0.015 * sin (t * 0.07))⟩,
       ⟨"MV Bus 2", 13.8, 0.95 + 0.02 * sin (t * 0.03),
        13.8 * (0.95 + 0.02 * sin (t * 0.03))⟩]
    loads :=
      [⟨"Industrial Load", "Load Center 1", 0.8 + 0.2 * sin (t * 0.02),
        0.3 + 0.1 * sin (t * 0.02)⟩,
       ⟨"Commercial Load", "Load Center 2", 0.5 + 0.3 * sin (t * 0.04),
        0.2 + 0.12 * sin (t * 0.04)⟩,
       ⟨"Residential Feeder", "MV Bus 2", 2.1 + 0.4 * sin (t * 0.01),
        0.8 + 0.15 * sin (t * 0.01)⟩]
    generators :=
      [⟨"Distributed Generator", "MV Bus 2", 1.5 + 0.2 * sin (t * 0.08),
        0.3 + 0.1 * cos (t * 0.08)⟩]
    lines :=
      [⟨"Critical Transmission Line", "MV Bus 1", "MV Bus 2",
        1.2 + 0.3 * sin (t * 0.06), 45 + 15 * sin (t * 0.06),
        0.08 + 0.02 * sin (t * 0.06)⟩]
    power_flow :=
      { total_load_mw := 3.4 + 0.6 * sin (t * 0.02)
        total_generation_mw := 1.5 + 0.2 * sin (t * 0.08)
        grid_import_mw := 1.9 + 0.4 * sin (t * 0.03)
        system_losses_mw := 0.05 + 0.02 * sin (t * 0.1) } }

/-- What get_simulation_data hands back to its caller: the parsed shared
file, or the synthetic fallback dataset. -/
inductive SimData where
  | fromFile (doc : Metrics)
  | synthetic (fb : FallbackDoc)
deriving DecidableEq

/-- SCADASystem.get_simulation_data: parsed data on success, the synthetic
fallback only for FileNotFoundError, and None (logged as an error) for every
other read failure. -/
def get_simulation_data (sin cos : ℚ → ℚ) (now : String) (t : ℚ) (breaker : Bool) :
    FileReadOutcome → Option SimData
  | .ok doc => some (.fromFile doc)
  | .missing => some (.synthetic (fallback_data sin cos now t breaker))
  | .unreadable => none
  | .malformed => none

/-- How the producer's shared-file state is seen by the dashboard reader:
before the first converged cycle the file does not exist (missing);
afterwards it holds the last published metrics. -/
def file_outcome : Option Metrics → FileReadOutcome
  | none => .missing
  | some m => .ok m

/-! ## src/blue_team_monitor.py: PLCSecurityMonitor

read_security_registers parses 25 holding registers and 8 coils into a dict
with the fifteen fixed string keys of lines 76-91; analyze_security_events
walks seven checks in order, appending alert dicts.  Python dict membership
and lookup on self.last_values matter for check 7, so the dict is modelled
with typed keys and Python equality (an int key never equals a str key). -/

/-- The register snapshot returned by read_security_registers.  Register
values are 16-bit unsigned ints, coils are bools; we use ℤ for the numeric
registers (only comparisons and inequality tests are performed on them). -/
structure PlcData where
  cycle_counter : ℤ
  last_command_time : ℤ
  security_event_count : ℤ
  maintenance_override : ℤ
  safety_timer_preset : ℤ
  health_signature : ℤ
  covert_channel_data : ℤ
  circuit_breaker : Bool
  system_status_led : Bool
  fault_led : Bool
  maintenance_led : Bool
  security_alert_led : Bool
  emergency_bypass : Bool
  debug_mode : Bool
deriving DecidableEq

/-- A Python dict key as used by the monitor: either a str or an int. -/
inductive PyKey where
  | str (s : String)
  | int (n : ℤ)
deriving DecidableEq

/-- A Python dict value in the monitor's register dict. -/
inductive PyVal where
  | int (n : ℤ)
  | bool (b : Bool)
deriving DecidableEq

/-- Python == between dict keys: values of different types (str vs int) are
never equal. -/
def py_key_eq : PyKey → PyKey → Bool
  | .str a, .str b => a == b
  | .int a, .int b => a == b
  | _, _ => false

/-- Association-list model of a Python dict with PyKey keys. -/
abbrev PyDict := List (PyKey × PyVal)

/-- Python `k in d` membership test on a dict. -/
def dict_contains (d : PyDict) (k : PyKey) : Bool :=
  d.any fun kv => py_key_eq kv.1 k

/-- Python `d.get(k, dflt)` for the int-valued registers (True == 1 under
Python's numeric equality, so a bool value is read as its int). -/
def dict_get_int (d : PyDict) (k : String) (dflt : ℤ) : ℤ :=
  match d.find? (fun kv => py_key_eq kv.1 (.str k)) with
  | some (_, .int n) => n
  | some (_, .bool b) => if b then 1 else 0
  | none => dflt

/-- The dict built by read_security_registers lines 76-91: all fifteen keys
are strings. -/
def data_to_dict (d : PlcData) : PyDict :=
  [(.str "cycle_counter", .int d.cycle_counter),
   (.str "last_command_time", .int d.last_command_time),
   (.str "security_event_count", .int d.security_event_count),
   (.str "maintenance_override", .int d.maintenance_override),
   (.str "safety_timer_preset", .int d.safety_timer_preset),
   (.str "health_signature", .int d.health_signature),
   (.str "covert_channel_data", .int d.covert_channel_data),
   (.str "circuit_breaker", .bool d.circuit_breaker),
   (.str "system_status_led", .bool d.system_status_led),
   (.str "fault_led", .bool d.fault_led),
   (.str "maintenance_led", .bool d.maintenance_led),
   (.str "security_alert_led", .bool d.security_alert_led),
   (.str "emergency_bypass", .bool d.emergency_bypass),
   (.str "debug_mode", .bool d.debug_mode)]

/-- An alert dict as appended by analyze_security_events.  The message and
value fields are formatting-only (f-strings over the same data) and are
elided; type and severity are what the monitoring loop and log keep. -/
structure AlertEvent where
  type : String
  severity : String
deriving DecidableEq

/-- self.alert_thresholds of lines 38-44. -/
def security_event_max : ℤ := 10
def safety_timer_min : ℤ := 50
def safety_timer_max : ℤ := 500
def expected_signature : ℤ := 0x12345678
def max_command_frequency : ℕ := 5

/-- Check 1 (lines 104-112): security event counter strictly above the
threshold. -/
def check_security_events (d : PlcData) : List AlertEvent :=
  if d.security_event_count > security_event_max then
    [⟨"HIGH_SECURITY_EVENTS", "HIGH"⟩]
  else []

/-- Check 2 (lines 114-129): maintenance override sentinel / nonzero. -/
def check_maintenance (d : PlcData) : List AlertEvent :=
  if d.maintenance_override = 0xDEADBEEF then
    [⟨"MAINTENANCE_BYPASS_ACTIVE", "CRITICAL"⟩]
  else if d.maintenance_override ≠ 0 then
    [⟨"UNAUTHORIZED_MAINTENANCE", "HIGH"⟩]
  else []

/-- Check 3 (lines 131-139): safety timer outside its range. -/
def check_safety_timer (d : PlcData) : List AlertEvent :=
  if d.safety_timer_preset < safety_timer_min ∨ d.safety_timer_preset > safety_timer_max then
    [⟨"SAFETY_TIMER_MANIPULATION", "HIGH"⟩]
  else []

/-- Check 4 (lines 141-149): health signature mismatch. -/
def check_signature (d : PlcData) : List AlertEvent :=
  if d.health_signature ≠ expected_signature then
    [⟨"SYSTEM_COMPROMISE", "CRITICAL"⟩]
  else []

/-- Check 5 (lines 151-158): emergency bypass flag. -/
def check_emergency_bypass (d : PlcData) : List AlertEvent :=
  if d.emergency_bypass then [⟨"EMERGENCY_BYPASS_ACTIVE", "HIGH"⟩] else []

/-- Check 6 (lines 160-168): debug mode flag. -/
def check_debug_mode (d : PlcData) : List AlertEvent :=
  if d.debug_mode then [⟨"DEBUG_MODE_ACTIVE", "MEDIUM"⟩] else []

/-- Check 7 (lines 170-188), command timing analysis, returning the alerts
plus the (possibly mutated) command history.  Mirrored exactly as written:
the outer guard is `if last_cmd_time in self.last_values`, i.e. a membership
test of the register's int VALUE against the dict's str keys, not a test for
the key "last_command_time".  Inside, the current wall time is appended to
the history, entries 600s or older are pruned, and the count of entries
younger than 60s is compared against the 5/minute maximum. -/
def check_command_timing (last_values : PyDict) (command_history : List ℤ)
    (current_time : ℤ) (d : PlcData) : List AlertEvent × List ℤ :=
  let last_cmd_time := d.last_command_time
  if dict_contains last_values (.int last_cmd_time) then
    if last_cmd_time ≠ dict_get_int last_values "last_command_time" 0 then
      let appended := command_history ++ [current_time]
      let pruned := appended.filter fun t => current_time - t < 600
      let recent_commands := (pruned.filter fun t => current_time - t < 60).length
      if recent_commands > max_command_frequency then
        ([⟨"HIGH_COMMAND_FREQUENCY", "MEDIUM"⟩], pruned)
      else ([], pruned)
    else ([], command_history)
  else ([], command_history)

/-- PLCSecurityMonitor.analyze_security_events: the seven checks in source
order; the alerts list is their concatenation, and the command history is
whatever check 7 left behind. -/
def analyze_security_events (last_values : PyDict) (command_history : List ℤ)
    (current_time : ℤ) (d : PlcData) : List AlertEvent × List ℤ :=
  let timing := check_command_timing last_values command_history current_time d
  (check_security_events d ++ check_maintenance d ++ check_safety_timer d ++
   check_signature d ++ check_emergency_bypass d ++ check_debug_mode d ++ timing.1,
   timing.2)

/-- The monitor's mutable state across polls: self.last_values (empty dict at
start, then the previous poll's register dict) and self.command_history. -/
structure MonitorState where
  last_values : PyDict
  command_history : List ℤ
deriving DecidableEq

/-- self.last_values over the run loop: the empty dict before the first
successful poll, afterwards data_to_dict of the previous poll. -/
def reachable_last_values : Option PlcData → PyDict
  | none => []
  | some d => data_to_dict d

/-- One iteration of run_monitoring (lines 250-272) with a successful
register read: analyze, then store the current dict for the next comparison. -/
def monitor_poll (st : MonitorState) (current_time : ℤ) (d : PlcData) :
    List AlertEvent × MonitorState :=
  let r := analyze_security_events st.last_values st.command_history current_time d
  (r.1, ⟨data_to_dict d, r.2⟩)

/-- A run of the monitoring loop over a list of timed register reads,
concatenating all emitted alerts. -/
def monitor_run : MonitorState → List (ℤ × PlcData) → List AlertEvent × MonitorState
  | st, [] => ([], st)
  | st, (t, d) :: rest =>
      let r := monitor_poll st t d
      let rec_rest := monitor_run r.2 rest
      (r.1 ++ rec_rest.1, rec_rest.2)

/-! ## Concrete fixtures used by the closed theorems -/

def ts0 : String := "2025-06-01T12:00:00"

/-- Result tables of a converged solve with the breaker closed, matching the
end-to-end scenario of the specification: the generator delivers 1.5 MW, the
external grid 1.9 MW, and the loads still hold their initial setpoints
0.8 + 0.5 + 2.1 = 3.4 MW. -/
def res_demo : SolverOutput :=
  { res_bus := [⟨some 1.02, some 0⟩, ⟨some 1.0, some (-1)⟩, ⟨some 0.99, some (-2)⟩,
                ⟨some 0.98, some (-3)⟩, ⟨some 0.98, some (-3)⟩]
    res_line := [⟨some 1.2, some 0.4, some 45, some 0.08⟩]
    res_gen := [⟨some 1.5, some 0.3⟩]
    res_ext_grid_p_mw := some 1.9 }

/-- Result tables of a converged solve with the breaker open: the critical
line is out of service, and pandapower reports NaN for it and for the island
behind it (MV Bus 2, Load Center 2, the generator), as the repository's own
fixed variant src/test_physical_process_fixed.py documents. -/
def res_breaker_open : SolverOutput :=
  { res_bus := [⟨some 1.02, some 0⟩, ⟨some 1.0, some (-2)⟩, ⟨none, none⟩,
                ⟨some 0.97, some (-3)⟩, ⟨none, none⟩]
    res_line := [⟨none, none, none, none⟩]
    res_gen := [⟨none, none⟩]
    res_ext_grid_p_mw := some 3.5 }

/-- A register snapshot with every static check in its quiet range, so only
the command-timing check is exercised; the command-time register is the
argument. -/
def benign_data (cmd_time : ℤ) : PlcData :=
  { cycle_counter := 0
    last_command_time := cmd_time
    security_event_count := 0
    maintenance_override := 0
    safety_timer_preset := 100
    health_signature := 0x12345678
    covert_channel_data := 0
    circuit_breaker := true
    system_status_led := true
    fault_led := false
    maintenance_led := false
    security_alert_led := false
    emergency_bypass := false
    debug_mode := false }

/-- Seven polls five to ten seconds apart whose command-time register changes
on every poll: the six transitions after the first poll all fall inside one
rolling 60-second window (times 10..55), one more than the configured
maximum of 5 per minute. -/
def c5_polls : List (ℤ × PlcData) :=
  [(0, benign_data 1), (10, benign_data 2), (20, benign_data 3), (30, benign_data 4),
   (40, benign_data 5), (50, benign_data 6), (55, benign_data 7)]

/-! ## Helper lemmas -/

theorem run_simulation_trace_cons (st : SimOutputs) (c : Option Metrics)
    (cycles : List (Option Metrics)) :
    run_simulation_trace st (c :: cycles) =
      run_simulation_trace (run_simulation_step st c) cycles := rfl

theorem shared_file_sound (cycles : List (Option Metrics)) :
    ∀ st : SimOutputs,
      (run_simulation_trace st cycles).shared_file = st.shared_file ∨
        ∃ m : Metrics, some m ∈ cycles ∧
          (run_simulation_trace st cycles).shared_file = some m := by
  induction cycles with
  | nil => exact fun st => Or.inl rfl
  | cons c rest ih =>
      intro st
      rcases ih (run_simulation_step st c) with h | ⟨m, hm, he⟩
      · cases c with
        | none => exact Or.inl (by rw [run_simulation_trace_cons]; exact h.trans rfl)
        | some m =>
            exact Or.inr ⟨m, List.mem_cons_self _ _,
              by rw [run_simulation_trace_cons]; exact h.trans rfl⟩
      · exact Or.inr ⟨m, List.mem_cons_of_mem _ hm,
          by rw [run_simulation_trace_cons]; exact he⟩

/-! ## Claim theorems -/

/-- C1.  When the power-flow solve of a cycle fails, get_system_metrics
returns None and the run_simulation body publishes nothing: the time-series
log and the shared JSON file are exactly the ones of the previous cycle (only
the simulated-time counter advances), the dashboard's broadcast payload —
computed from the shared file by get_simulation_data — is likewise unchanged,
and over any run the shared file only ever holds the output of a converged
solve (or its initial content). -/
theorem c1_failed_solve_publishes_nothing :
    (∀ st : SimOutputs,
      run_simulation_step st none = { st with simulation_time := st.simulation_time + 5 }) ∧
    (∀ (sin cos : ℚ → ℚ) (now : String) (t : ℚ) (b : Bool) (st : SimOutputs),
      get_simulation_data sin cos now t b
          (file_outcome (run_simulation_step st none).shared_file) =
        get_simulation_data sin cos now t b (file_outcome st.shared_file)) ∧
    (∀ (st : SimOutputs) (cycles : List (Option Metrics)),
      (run_simulation_trace st cycles).shared_file = st.shared_file ∨
        ∃ m : Metrics, some m ∈ cycles ∧
          (run_simulation_trace st cycles).shared_file = some m) :=
  ⟨fun _ => rfl, fun _ _ _ _ _ _ => rfl, fun st cycles => shared_file_sound cycles st⟩

/-- C3.  In every snapshot built by the evaluator the published
system_losses_mw is exactly the (NaN-propagating) absolute value of
total_generation_mw plus grid_import_mw minus total_load_mw, and the
specification's end-to-end scenario (load 3.4 MW, generation 1.5 MW, import
1.9 MW) yields losses exactly 0. -/
theorem c3_system_losses_balance :
    (∀ (ts : String) (b : Bool) (j : ℚ) (loads : NetLoads) (res : SolverOutput),
      (build_metrics ts b j loads res).power_flow.system_losses_mw =
        pAbs (pSub
          (pAdd (build_metrics ts b j loads res).power_flow.total_generation_mw
            (build_metrics ts b j loads res).power_flow.grid_import_mw)
          (some (build_metrics ts b j loads res).power_flow.total_load_mw))) ∧
    (build_metrics ts0 true 0 init_loads res_demo).power_flow =
      { total_load_mw := 3.4, total_generation_mw := some 1.5,
        grid_import_mw := some 1.9, system_losses_mw := some 0 } := by
  refine ⟨fun ts b j loads res => rfl, ?_⟩
  simp only [build_metrics, init_loads, res_demo, ts0, pSum, pAdd, pSub, pAbs,
    net_gen, net_bus, bus_name, List.map_cons, List.map_nil, List.zip_cons_cons,
    List.zip_nil_right, List.foldl_cons, List.foldl_nil, List.sum_cons, List.sum_nil,
    PowerFlowSummary.mk.injEq, Option.some.injEq]
  norm_num

/-- C7.  With a live PLC client, a read that fails — either a protocol-level
error response or a raised exception — makes get_plc_breaker_state return the
documented default True (breaker closed), and the cycle's snapshot is built
with that value. -/
theorem c7_default_closed_on_failed_read :
    ∀ (t : ℕ) (ts : String) (j : ℚ) (loads : NetLoads) (res : SolverOutput),
      get_plc_breaker_state true t .errorResponse = true ∧
      get_plc_breaker_state true t .exn = true ∧
      (build_metrics ts (get_plc_breaker_state true t .errorResponse) j loads res).breaker_state
        = true ∧
      (build_metrics ts (get_plc_breaker_state true t .exn) j loads res).breaker_state = true :=
  fun _ _ _ _ _ => ⟨rfl, rfl, rfl, rfl⟩

/-- C10.  With no client (simulation mode) the breaker read is a pure
function of the simulated-time counter: true exactly when simulation_time
mod 40 is below 30 (30 s closed, 10 s open, period 40 s), independent of any
Modbus traffic — in particular it is false at simulation_time 30, so the
reader does not fall back to the constant default True. -/
theorem c10_simulation_mode_breaker_cycle :
    ∀ (t : ℕ) (read : PlcReadResult),
      (get_plc_breaker_state false t read = true ↔ t % 40 < 30) ∧
      get_plc_breaker_state false t read = decide (t % 40 < 30) ∧
      get_plc_breaker_state false (t + 40) read = get_plc_breaker_state false t read ∧
      get_plc_breaker_state false 30 read = false := by
  intro t read
  refine ⟨?_, rfl, ?_, rfl⟩
  · simp [get_plc_breaker_state]
  · simp [get_plc_breaker_state, Nat.add_mod_right]

/-- C9.  Whatever the time-of-day factors and the random perturbations drawn
that cycle, update_dynamic_loads hands the solver active powers at or above
the fixed floors — Industrial 0.2 MW, Commercial 0.1 MW, Residential 0.5 MW —
and hence strictly positive. -/
theorem c9_load_floor_clamped :
    ∀ (industrial_factor commercial_factor residential_factor n0 n1 n2 : ℚ)
      (loads : NetLoads),
      0.2 ≤ (update_dynamic_loads industrial_factor commercial_factor residential_factor
        n0 n1 n2 loads).load0.p_mw ∧
      0.1 ≤ (update_dynamic_loads industrial_factor commercial_factor residential_factor
        n0 n1 n2 loads).load1.p_mw ∧
      0.5 ≤ (update_dynamic_loads industrial_factor commercial_factor residential_factor
        n0 n1 n2 loads).load2.p_mw ∧
      0 < (update_dynamic_loads industrial_factor commercial_factor residential_factor
        n0 n1 n2 loads).load0.p_mw ∧
      0 < (update_dynamic_loads industrial_factor commercial_factor residential_factor
        n0 n1 n2 loads).load1.p_mw ∧
      0 < (update_dynamic_loads industrial_factor commercial_factor residential_factor
        n0 n1 n2 loads).load2.p_mw := by
  intro fi fc fr n0 n1 n2 loads
  simp only [update_dynamic_loads]
  refine ⟨le_max_left _ _, le_max_left _ _, le_max_left _ _, ?_, ?_, ?_⟩
  · exact lt_of_lt_of_le (by norm_num) (le_max_left _ _)
  · exact lt_of_lt_of_le (by norm_num) (le_max_left _ _)
  · exact lt_of_lt_of_le (by norm_num) (le_max_left _ _)

/-- C4 counterexample.  The frequency jitter is an unseeded
np.random.normal(0, 0.02) draw — a distribution with full support and no
clamp anywhere in the code — so a draw of 0.2 is possible and produces a
published system_frequency of 60.2 Hz, outside the claimed bound
[59.9, 60.1]. -/
theorem c4_frequency_can_leave_documented_bound :
    (build_metrics ts0 true (1/5) init_loads res_demo).system_frequency = 301/5 ∧
    ¬ ((build_metrics ts0 true (1/5) init_loads res_demo).system_frequency ≤ 601/10) := by
  constructor
  · norm_num [build_metrics]
  · norm_num [build_metrics]

/-- C4 amended.  Two evaluations over the same breaker state, loads, solver
result and timestamp agree on every snapshot field except system_frequency;
the frequency equals 60 plus the Gaussian sample drawn that cycle, with no
clamping, so it lies in [59.9, 60.1] exactly when the drawn sample has
magnitude at most 0.1 — the code does not guarantee the bound for every
draw. -/
theorem c4_deterministic_except_frequency :
    ∀ (ts : String) (b : Bool) (loads : NetLoads) (res : SolverOutput) (j1 j2 : ℚ),
      (build_metrics ts b j1 loads res).timestamp = (build_metrics ts b j2 loads res).timestamp ∧
      (build_metrics ts b j1 loads res).breaker_state
        = (build_metrics ts b j2 loads res).breaker_state ∧
      (build_metrics ts b j1 loads res).breaker_status
        = (build_metrics ts b j2 loads res).breaker_status ∧
      (build_metrics ts b j1 loads res).buses = (build_metrics ts b j2 loads res).buses ∧
      (build_metrics ts b j1 loads res).lines = (build_metrics ts b j2 loads res).lines ∧
      (build_metrics ts b j1 loads res).loads = (build_metrics ts b j2 loads res).loads ∧
      (build_metrics ts b j1 loads res).generators
        = (build_metrics ts b j2 loads res).generators ∧
      (build_metrics ts b j1 loads res).power_flow
        = (build_metrics ts b j2 loads res).power_flow ∧
      (build_metrics ts b j1 loads res).system_frequency = 60 + j1 ∧
      ((599/10 ≤ (build_metrics ts b j1 loads res).system_frequency ∧
          (build_metrics ts b j1 loads res).system_frequency ≤ 601/10) ↔ |j1| ≤ 1/10) := by
  intro ts b loads res j1 j2
  refine ⟨rfl, rfl, rfl, rfl, rfl, rfl, rfl, rfl, rfl, ?_⟩
  have hfreq : (build_metrics ts b j1 loads res).system_frequency = 60 + j1 := rfl
  rw [hfreq, abs_le]
  constructor
  · rintro ⟨h1, h2⟩
    constructor <;> linarith
  · rintro ⟨h1, h2⟩
    constructor <;> linarith

/-- C2.  On a converged breaker-open cycle the solver reports NaN for the
isolated critical line, and get_system_metrics copies those cells into the
published snapshot unchanged: every one of loading_percent, current_ka,
p_from_mw and q_from_mvar of the critical line's entry is NaN, not 0.0.
(The repository's own fixed variant, src/test_physical_process_fixed.py,
and the dashboard's grid_data path normalize these NaNs to 0.0; the
publisher under verification does not.) -/
theorem c2_breaker_open_snapshot_carries_nan :
    find_critical_line (build_metrics ts0 false 0 init_loads res_breaker_open).lines =
      some ⟨"Critical Transmission Line", "MV Bus 1", "MV Bus 2", none, none, none, none⟩ ∧
    (build_metrics ts0 false 0 init_loads res_breaker_open).breaker_state = false ∧
    dash_grid_lines res_breaker_open.res_line = ⟨[0], [0], [0]⟩ := by
  refine ⟨?_, rfl, rfl⟩
  rfl

/-- C8 counterexample.  A shared file whose content is malformed JSON (or
one that is unreadable) is caught by the generic exception handler of
get_simulation_data, which returns None — not the synthetic fallback the
claim promises. -/
theorem c8_malformed_file_yields_none :
    get_simulation_data (fun _ => 0) (fun _ => 0) ts0 0 false .malformed = none ∧
    get_simulation_data (fun _ => 0) (fun _ => 0) ts0 0 false .unreadable = none :=
  ⟨rfl, rfl⟩

/-- C8 amended.  Only a missing shared file (FileNotFoundError) is answered
with the documented synthetic fallback dataset — a complete status document
with 3 buses, 3 loads, 1 generator, 1 line and a power_flow summary; a
successful read returns the parsed document, while an unreadable or
malformed file is caught by the generic handler and yields None. -/
theorem c8_fallback_only_for_missing_file :
    ∀ (sin cos : ℚ → ℚ) (now : String) (t : ℚ) (b : Bool),
      get_simulation_data sin cos now t b .missing =
        some (.synthetic (fallback_data sin cos now t b)) ∧
      (∀ doc : Metrics,
        get_simulation_data sin cos now t b (.ok doc) = some (.fromFile doc)) ∧
      get_simulation_data sin cos now t b .unreadable = none ∧
      get_simulation_data sin cos now t b .malformed = none ∧
      (fallback_data sin cos now t b).buses.length = 3 ∧
      (fallback_data sin cos now t b).loads.length = 3 ∧
      (fallback_data sin cos now t b).generators.length = 1 ∧
      (fallback_data sin cos now t b).lines.length = 1 :=
  fun _ _ _ _ _ => ⟨rfl, fun _ => rfl, rfl, rfl, rfl, rfl, rfl, rfl⟩

/-- C5.  The command-frequency rate check is dead code: its outer guard
tests the int value of the command-time register for membership among the
register dict's str keys, which Python equality never satisfies, so — for
every reachable last_values dict (the empty dict at start, or the previous
poll's register dict) — analyze_security_events leaves the command history
untouched (no append, no pruning) and never emits a HIGH_COMMAND_FREQUENCY
alert; in particular the seven-poll run with six command-time transitions
inside one 60-second window produces no such alert. -/
theorem c5_command_frequency_check_unreachable :
    (∀ (prev : Option PlcData) (history : List ℤ) (t : ℤ) (d : PlcData),
      (analyze_security_events (reachable_last_values prev) history t d).2 = history ∧
      ((analyze_security_events (reachable_last_values prev) history t d).1.filter
        fun a => a.type == "HIGH_COMMAND_FREQUENCY") = []) ∧
    ((monitor_run ⟨[], []⟩ c5_polls).1.filter
      fun a => a.type == "HIGH_COMMAND_FREQUENCY") = [] ∧
    (monitor_run ⟨[], []⟩ c5_polls).2.command_history = [] := by
  refine ⟨?_, rfl, rfl⟩
  intro prev history t d
  have hc : check_command_timing (reachable_last_values prev) history t d = ([], history) := by
    cases prev <;> rfl
  have e1 : (check_security_events d).filter
      (fun a => a.type == "HIGH_COMMAND_FREQUENCY") = [] := by
    unfold check_security_events
    repeat' split
    all_goals rfl
  have e2 : (check_maintenance d).filter
      (fun a => a.type == "HIGH_COMMAND_FREQUENCY") = [] := by
    unfold check_maintenance
    repeat' split
    all_goals rfl
  have e3 : (check_safety_timer d).filter
      (fun a => a.type == "HIGH_COMMAND_FREQUENCY") = [] := by
    unfold check_safety_timer
    repeat' split
    all_goals rfl
  have e4 : (check_signature d).filter
      (fun a => a.type == "HIGH_COMMAND_FREQUENCY") = [] := by
    unfold check_signature
    repeat' split
    all_goals rfl
  have e5 : (check_emergency_bypass d).filter
      (fun a => a.type == "HIGH_COMMAND_FREQUENCY") = [] := by
    unfold check_emergency_bypass
    repeat' split
    all_goals rfl
  have e6 : (check_debug_mode d).filter
      (fun a => a.type == "HIGH_COMMAND_FREQUENCY") = [] := by
    unfold check_debug_mode
    repeat' split
    all_goals rfl
  constructor
  · simp only [analyze_security_events, hc]
  · simp only [analyze_security_events, hc, List.filter_append, e1, e2, e3, e4, e5, e6]
    simp

/-- C6.  For every monitor state and register snapshot: with
security_event_count = 11 (threshold 10) the analysis emits exactly one
alert of type HIGH_SECURITY_EVENTS, and it has severity HIGH; with
security_event_count = 10 it emits no alert of that type — the boundary is
strict. -/
theorem c6_security_event_threshold_boundary :
    ∀ (lv : PyDict) (history : List ℤ) (t : ℤ) (d : PlcData),
      ((analyze_security_events lv history t
          { d with security_event_count := 11 }).1.filter
        fun a => a.type == "HIGH_SECURITY_EVENTS") = [⟨"HIGH_SECURITY_EVENTS", "HIGH"⟩] ∧
      ((analyze_security_events lv history t
          { d with security_event_count := 10 }).1.filter
        fun a => a.type == "HIGH_SECURITY_EVENTS") = [] := by
  intro lv history t d
  have e2 : ∀ d' : PlcData, (check_maintenance d').filter
      (fun a => a.type == "HIGH_SECURITY_EVENTS") = [] := by
    intro d'
    unfold check_maintenance
    repeat' split
    all_goals rfl
  have e3 : ∀ d' : PlcData, (check_safety_timer d').filter
      (fun a => a.type == "HIGH_SECURITY_EVENTS") = [] := by
    intro d'
    unfold check_safety_timer
    repeat' split
    all_goals rfl
  have e4 : ∀ d' : PlcData, (check_signature d').filter
      (fun a => a.type == "HIGH_SECURITY_EVENTS") = [] := by
    intro d'
    unfold check_signature
    repeat' split
    all_goals rfl
  have e5 : ∀ d' : PlcData, (check_emergency_bypass d').filter
      (fun a => a.type == "HIGH_SECURITY_EVENTS") = [] := by
    intro d'
    unfold check_emergency_bypass
    repeat' split
    all_goals rfl
  have e6 : ∀ d' : PlcData, (check_debug_mode d').filter
      (fun a => a.type == "HIGH_SECURITY_EVENTS") = [] := by
    intro d'
    unfold check_debug_mode
    repeat' split
    all_goals rfl
  have e7 : ∀ d' : PlcData, ((check_command_timing lv history t d').1).filter
      (fun a => a.type == "HIGH_SECURITY_EVENTS") = [] := by
    intro d'
    cases hbc : dict_contains lv (PyKey.int d'.last_command_time) with
    | false => simp [check_command_timing, hbc]
    | true =>
        simp only [check_command_timing, hbc]
        repeat' split
        all_goals rfl
  constructor
  · simp only [analyze_security_events, List.filter_append, e2, e3, e4, e5, e6, e7,
      List.append_nil, List.nil_append]
    rfl
  · simp only [analyze_security_events, List.filter_append, e2, e3, e4, e5, e6, e7,
      List.append_nil, List.nil_append]
    rfl

end GridGuard
